import Mathlib

/-!
Shallow embedding of the task-collaboration backend's authorization and
task-lifecycle code (Django/DRF function-based views), together with
theorems settling the specification claims against it.

Sources embedded:
- apps/users/models.py      : UserModel (role is a plain string; the Roles
  choices store the lowercase values "admin" / "manager" / "employee").
- apps/tasks/models.py      : Task (status is a plain string with choice
  values "pending" / "in_progress" / "completed"; assigned_to is a
  many-to-many set of user ids; assigned_by the creator's id).
- apps/tasks/permissions.py : TaskPermission.has_permission and
  TaskPermission.has_object_permission.
- apps/tasks/serializers.py : TaskSerializer (fields id, title, description,
  docs, assigned_by, assigned_to, deadline, assigned_date, labels;
  read-only assigned_by and assigned_date; assigned_to is a
  PrimaryKeyRelatedField over the queryset of users with role = "EMPLOYEE";
  DRF gives a many relation allow_empty = True by default, so an empty
  list validates; status is not among the serializer fields, so a
  submitted status is ignored).
- apps/tasks/views.py       : create_task, list_all_task, list_one_task,
  update_task, delete_task, mark_task_complete, update_task_deadline,
  filter_by_status, filter_by_deadline.

Modelling conventions:
- DRF runs TaskPermission.has_permission before the view body
  (check_permissions in APIView.initial); function-based views never call
  has_object_permission unless the body does so explicitly.  Only
  mark_task_complete and update_task_deadline call it in the source;
  the other views are embedded without an object-level check, exactly as
  written.
- Calendar dates are embedded as Int ordinals; the Python date parser is
  abstracted: a request field that must be parsed arrives as
  Option (Option Int), where none is a missing / empty parameter and
  some none an unparseable one (datetime raising ValueError).
- The repository is a List Task; Task.objects.get is find? by id,
  save replaces the record with the same id, delete filters it out.
  order_by and pagination (apps/tasks/pagination.py, not part of the
  decision logic) only reorder or page the same queryset and are
  omitted; every claim below is about queryset membership.
- The channel-layer group_send calls are recorded as a list of Dispatch
  values returned by the view.
-/

namespace TaskSys

structure User where
  id : Nat
  username : String
  role : String
  is_authenticated : Bool
deriving Repr, DecidableEq

structure Task where
  id : Nat
  title : String
  description : String
  docs : Option String
  assigned_by : Nat
  assigned_to : List Nat
  deadline : Int
  assigned_date : Int
  labels : String
  status : String
deriving Repr, DecidableEq

/-- Task.objects.get(id=task_id), returning none on DoesNotExist. -/
def getTask (repo : List Task) (task_id : Nat) : Option Task :=
  repo.find? (fun t => t.id == task_id)

/-- task.save(): replace the stored record carrying the same id. -/
def saveTask (repo : List Task) (t : Task) : List Task :=
  repo.map (fun x => if x.id == t.id then t else x)

/-- TaskPermission.has_permission (apps/tasks/permissions.py lines 11-31):
unauthenticated users are always refused; admin passes; manager passes
POST; employee is refused POST; every other method falls through to True
(object-level checks are deferred). -/
def has_permission (u : User) (method : String) : Bool :=
  if !u.is_authenticated then false
  else if u.role == "admin" then true
  else if method == "POST" && u.role == "manager" then true
  else if method == "POST" && u.role == "employee" then false
  else true

/-- TaskPermission.has_object_permission (apps/tasks/permissions.py lines
33-55): admin full access; manager may PUT/PATCH/DELETE only tasks they
assigned, GET any; employee may PUT/PATCH/GET only tasks assigned to
them and never DELETE; any other role is refused. -/
def has_object_permission (u : User) (method : String) (obj : Task) : Bool :=
  if u.role == "admin" then true
  else if u.role == "manager" then
    if method == "PUT" || method == "PATCH" || method == "DELETE" then
      obj.assigned_by == u.id
    else true
  else if u.role == "employee" then
    if method == "PUT" || method == "PATCH" then obj.assigned_to.contains u.id
    else if method == "GET" then obj.assigned_to.contains u.id
    else false
  else false

/-- The TaskSerializer assigned_to queryset:
UserModel.objects.filter(role='EMPLOYEE').  The filter string is the
uppercase 'EMPLOYEE' exactly as written in apps/tasks/serializers.py
line 10, compared exactly against the stored role value. -/
def inEmployeeQueryset (users : List User) (uid : Nat) : Bool :=
  (users.filter (fun u => u.role == "EMPLOYEE")).any (fun u => u.id == uid)

/-- Input to create_task: the writable serializer fields.  assigned_to is
none when the key is absent from the request (a required field), some ids
when supplied. -/
structure TaskDraft where
  title : String
  description : String
  docs : Option String
  deadline : Int
  assigned_to : Option (List Nat)
  labels : String
deriving Repr, DecidableEq

/-- TaskSerializer.is_valid for creation: assigned_to is required, and
each supplied pk must belong to the employee queryset.  DRF's
ManyRelatedField has allow_empty = True by default, so an empty supplied
list validates. -/
def create_serializer_valid (users : List User) (d : TaskDraft) : Bool :=
  match d.assigned_to with
  | none => false
  | some ids => ids.all (inEmployeeQueryset users)

/-- A PATCH body for update_task.  assigned_by is carried to record what
the client sent: the serializer declares it read-only, so it never reaches
validated_data.  status is not among the serializer's Meta.fields at all,
so a submitted status never reaches the update either and is omitted
here. -/
structure TaskPatch where
  title : Option String
  description : Option String
  docs : Option (Option String)
  deadline : Option Int
  assigned_to : Option (List Nat)
  labels : Option String
  assigned_by : Option Nat
deriving Repr, DecidableEq

/-- TaskSerializer.is_valid for a partial update: only supplied writable
fields are validated; assigned_to pks must lie in the employee queryset;
read-only assigned_by is ignored. -/
def patch_serializer_valid (users : List User) (p : TaskPatch) : Bool :=
  match p.assigned_to with
  | none => true
  | some ids => ids.all (inEmployeeQueryset users)

/-- ModelSerializer.update: set each supplied writable field on the
instance; assigned_by (read-only) and status (not a serializer field) are
left untouched, as is the pk. -/
def apply_patch (t : Task) (p : TaskPatch) : Task :=
  { t with
    title := p.title.getD t.title
    description := p.description.getD t.description
    docs := p.docs.getD t.docs
    deadline := p.deadline.getD t.deadline
    assigned_to := p.assigned_to.getD t.assigned_to
    labels := p.labels.getD t.labels }

/-- One channel_layer.group_send call from create_task (views.py lines
142-155): group "user_" ++ id of the recipient, and the message payload
fields sent alongside the send_notification type. -/
structure Dispatch where
  recipient : Nat
  group : String
  title : String
  task_id : Nat
  task_title : String
  assigned_by_name : String
deriving Repr, DecidableEq

def mkDispatch (actor : User) (t : Task) (recipient : Nat) : Dispatch :=
  { recipient := recipient
    group := "user_" ++ toString recipient
    title := "New Task Assigned"
    task_id := t.id
    task_title := t.title
    assigned_by_name := actor.username }

inductive CreateResult where
  | forbidden
  | badRequest
  | created (t : Task)
deriving Repr, DecidableEq

/-- create_task (views.py lines 129-160): permission gate, serializer
validation, then persist with assigned_by := request.user, status
defaulting to pending, assigned_date := now, and one group_send per
member of task.assigned_to.all(). -/
def create_task (u : User) (users : List User) (repo : List Task)
    (d : TaskDraft) (newId : Nat) (now : Int) :
    CreateResult × List Task × List Dispatch :=
  if !has_permission u "POST" then (.forbidden, repo, [])
  else if create_serializer_valid users d then
    let ids := d.assigned_to.getD []
    let t : Task :=
      { id := newId, title := d.title, description := d.description
        docs := d.docs, assigned_by := u.id, assigned_to := ids
        deadline := d.deadline, assigned_date := now, labels := d.labels
        status := "pending" }
    (.created t, repo ++ [t], ids.map (mkDispatch u t))
  else (.badRequest, repo, [])

inductive ListResult where
  | forbidden
  | badRequest
  | ok (ts : List Task)
deriving Repr, DecidableEq

/-- list_all_task (views.py lines 237-244): Task.objects.all() with no
visibility filter of any kind. -/
def list_all_task (u : User) (repo : List Task) : ListResult :=
  if !has_permission u "GET" then .forbidden
  else .ok repo

/-- ASCII lower-casing of one character. -/
def lowerChar (c : Char) : Char :=
  if c.isUpper then Char.ofNat (c.toNat + 32) else c

/-- status__iexact: case-insensitive string equality. -/
def iexact (a b : String) : Bool :=
  a.data.map lowerChar == b.data.map lowerChar

/-- filter_by_status (views.py lines 794-815): the role is compared with
the uppercase literals 'ADMIN' and 'MANAGER' exactly as written; both the
MANAGER branch and the else branch filter by assigned_to = user. -/
def filter_by_status (u : User) (repo : List Task)
    (status_param : Option String) : ListResult :=
  if !has_permission u "GET" then .forbidden
  else match status_param with
  | none => .badRequest
  | some sp =>
    if u.role == "ADMIN" then
      .ok (repo.filter (fun t => iexact t.status sp))
    else if u.role == "MANAGER" then
      .ok (repo.filter (fun t => iexact t.status sp && t.assigned_to.contains u.id))
    else
      .ok (repo.filter (fun t => iexact t.status sp && t.assigned_to.contains u.id))

/-- filter_by_deadline (views.py lines 896-921): deadline__lte filter;
role compared with the uppercase literal 'ADMIN'; every other role gets
the assigned_to = user filter. -/
def filter_by_deadline (u : User) (repo : List Task)
    (date_param : Option (Option Int)) : ListResult :=
  if !has_permission u "GET" then .forbidden
  else match date_param with
  | none => .badRequest
  | some none => .badRequest
  | some (some d) =>
    if u.role == "ADMIN" then
      .ok (repo.filter (fun t => decide (t.deadline ≤ d)))
    else
      .ok (repo.filter (fun t => decide (t.deadline ≤ d) && t.assigned_to.contains u.id))

inductive ViewResult where
  | forbidden
  | notFound
  | permissionDenied
  | badRequest
  | ok
deriving Repr, DecidableEq

/-- list_one_task (views.py lines 317-325): fetch or 404; no object-level
permission check appears in the body. -/
def list_one_task (u : User) (repo : List Task) (task_id : Nat) :
    ViewResult × Option Task :=
  if !has_permission u "GET" then (.forbidden, none)
  else match getTask repo task_id with
  | none => (.notFound, none)
  | some t => (.ok, some t)

/-- update_task (views.py lines 468-486), PATCH path: fetch or 404, then
serializer validation and save.  The body never calls
has_object_permission, and it performs no notification dispatch. -/
def update_task (u : User) (users : List User) (repo : List Task)
    (task_id : Nat) (p : TaskPatch) :
    ViewResult × List Task × List Dispatch :=
  if !has_permission u "PATCH" then (.forbidden, repo, [])
  else match getTask repo task_id with
  | none => (.notFound, repo, [])
  | some t =>
    if patch_serializer_valid users p then
      (.ok, saveTask repo (apply_patch t p), [])
    else (.badRequest, repo, [])

/-- delete_task (views.py lines 537-546): fetch or 404, then delete
unconditionally.  The body never calls has_object_permission. -/
def delete_task (u : User) (repo : List Task) (task_id : Nat) :
    ViewResult × List Task :=
  if !has_permission u "DELETE" then (.forbidden, repo)
  else match getTask repo task_id with
  | none => (.notFound, repo)
  | some _ => (.ok, repo.filter (fun t => t.id != task_id))

/-- mark_task_complete (views.py lines 597-617): fetch or 404, explicit
has_object_permission check, then status := completed and save. -/
def mark_task_complete (u : User) (repo : List Task) (task_id : Nat) :
    ViewResult × List Task :=
  if !has_permission u "PATCH" then (.forbidden, repo)
  else match getTask repo task_id with
  | none => (.notFound, repo)
  | some t =>
    if !has_object_permission u "PATCH" t then (.permissionDenied, repo)
    else (.ok, saveTask repo { t with status := "completed" })

/-- update_task_deadline (views.py lines 680-714): fetch or 404, explicit
has_object_permission check, required deadline parameter, date parse,
then save. -/
def update_task_deadline (u : User) (repo : List Task) (task_id : Nat)
    (deadline_param : Option (Option Int)) : ViewResult × List Task :=
  if !has_permission u "PATCH" then (.forbidden, repo)
  else match getTask repo task_id with
  | none => (.notFound, repo)
  | some t =>
    if !has_object_permission u "PATCH" t then (.permissionDenied, repo)
    else match deadline_param with
    | none => (.badRequest, repo)
    | some none => (.badRequest, repo)
    | some (some d) => (.ok, saveTask repo { t with deadline := d })

inductive StatusResult where
  | ok (t : Task)
  | invalidTransition
  | validationError
deriving Repr, DecidableEq

/-- Modelled from the spec: the repository exposes no endpoint taking an
arbitrary target status (TaskSerializer's Meta.fields omit status, so
update_task ignores it, and mark_task_complete only ever writes
completed), so the transition-validating updateStatus of spec section 4.2
is absent from src/ and modelled here from the spec's words: valid edges
pending to in_progress, pending to completed, in_progress to completed;
transition to the current status is a no-op success; completed is
terminal with InvalidTransition on any exit; unknown target statuses are
a ValidationError. -/
def spec_updateStatus (t : Task) (target : String) : StatusResult :=
  if !(target == "pending" || target == "in_progress" || target == "completed") then
    .validationError
  else if target == t.status then .ok t
  else if t.status == "pending" &&
      (target == "in_progress" || target == "completed") then
    .ok { t with status := target }
  else if t.status == "in_progress" && target == "completed" then
    .ok { t with status := target }
  else .invalidTransition

/- Concrete fixtures used by counterexamples, code-bug evaluations and
witnesses. -/

def mgr1 : User := { id := 1, username := "m1", role := "manager", is_authenticated := true }

def mgr2 : User := { id := 2, username := "m2", role := "manager", is_authenticated := true }

def emp3 : User := { id := 3, username := "e3", role := "employee", is_authenticated := true }

def adminA : User := { id := 9, username := "a9", role := "admin", is_authenticated := true }

def anon : User := { id := 6, username := "anon6", role := "employee", is_authenticated := false }

/-- Task created (assigned_by) by user 1, assigned to employee 3. -/
def task1 : Task :=
  { id := 1, title := "T1", description := "D1", docs := none
    assigned_by := 1, assigned_to := [3], deadline := 10
    assigned_date := 0, labels := "", status := "pending" }

/-- Task assigned only to user 4: neither emp3 nor adminA is assigned. -/
def task2 : Task :=
  { id := 2, title := "T2", description := "D2", docs := none
    assigned_by := 1, assigned_to := [4], deadline := 10
    assigned_date := 0, labels := "", status := "pending" }

def ctask : Task := { task1 with status := "completed" }

/-- A user table whose only member of the serializer's employee queryset
is user 10 (role string exactly "EMPLOYEE"). -/
def demoUsers : List User :=
  [{ id := 10, username := "e10", role := "EMPLOYEE", is_authenticated := true }]

def emptyDraft : TaskDraft :=
  { title := "T", description := "D", docs := none, deadline := 5
    assigned_to := some [], labels := "" }

def badDraft : TaskDraft :=
  { title := "T", description := "D", docs := none, deadline := 5
    assigned_to := some [42], labels := "" }

/-- The task that create_task persists from emptyDraft for mgr1. -/
def ctask5 : Task :=
  { id := 1, title := "T", description := "D", docs := none
    assigned_by := 1, assigned_to := [], deadline := 5
    assigned_date := 0, labels := "", status := "pending" }

def noPatch : TaskPatch :=
  { title := none, description := none, docs := none, deadline := none
    assigned_to := none, labels := none, assigned_by := none }

/-- A patch carrying only a createdBy value different from the stored
one. -/
def patch999 : TaskPatch := { noPatch with assigned_by := some 999 }

/-- Users 21 and 22 both lie in the serializer's employee queryset. -/
def users7 : List User :=
  [{ id := 21, username := "e21", role := "EMPLOYEE", is_authenticated := true },
   { id := 22, username := "e22", role := "EMPLOYEE", is_authenticated := true }]

/-- Task created by mgr2, already assigned to 21 only. -/
def task7 : Task :=
  { id := 7, title := "T7", description := "D7", docs := none
    assigned_by := 2, assigned_to := [21], deadline := 10
    assigned_date := 0, labels := "", status := "pending" }

/-- The patch replacing the assignee set by the enlarged set 21, 22. -/
def patch7 : TaskPatch := { noPatch with assigned_to := some [21, 22] }

def draft8 : TaskDraft :=
  { title := "T8", description := "D8", docs := none, deadline := 5
    assigned_to := some [21, 22], labels := "" }

/-- The task create_task persists from draft8 for mgr1 with id 3. -/
def task8 : Task :=
  { id := 3, title := "T8", description := "D8", docs := none
    assigned_by := 1, assigned_to := [21, 22], deadline := 5
    assigned_date := 0, labels := "", status := "pending" }

/-- The dispatch list create_task emits for draft8. -/
def ds8 : List Dispatch :=
  [mkDispatch mgr1 task8 21, mkDispatch mgr1 task8 22]

/- Theorems settling the claims. -/

/-- C1: the claim says a Manager who is not the creator is denied delete
and the task remains.  The code violates it: delete_task never consults
has_object_permission (which would return false for mgr2 on task1 created
by user 1), so the non-creator manager's delete succeeds and the task is
removed from the repository. -/
theorem C1_delete_by_noncreator_manager_succeeds :
    has_object_permission mgr2 "DELETE" task1 = false ∧
    delete_task mgr2 [task1] 1 = (ViewResult.ok, []) := by
  constructor <;> rfl

/-- C2: the claim says listing is role-scoped (Admin all, Manager
created-or-assigned, Employee assigned-only).  The code violates it:
list_all_task applies no visibility filter, so employee 3 sees task2
though not assigned to it; and filter_by_status compares the role with
the uppercase literal ADMIN while roles are stored lowercase, so the
admin falls into the assigned-only branch and sees nothing. -/
theorem C2_visibility_filter_divergence :
    list_all_task emp3 [task2] = ListResult.ok [task2] ∧
    filter_by_status adminA [task2] (some "pending") = ListResult.ok [] ∧
    filter_by_deadline adminA [task2] (some (some 50)) = ListResult.ok [] := by
  refine ⟨?_, ?_, ?_⟩ <;> decide

/-- C3: the claim says UpdateDeadline is denied for every Employee, even
one assigned to the task.  The code violates it: update_task_deadline
consults has_object_permission, which for an employee on PATCH returns
true whenever the employee is assigned, so assigned employee 3 updates
the deadline of task1 successfully. -/
theorem C3_assigned_employee_updates_deadline :
    has_object_permission emp3 "PATCH" task1 = true ∧
    update_task_deadline emp3 [task1] 1 (some (some 99)) =
      (ViewResult.ok, [{ task1 with deadline := 99 }]) := by
  constructor <;> rfl

/-- C4: Completed is terminal.  For any task whose status is completed:
the spec-modelled updateStatus rejects every enumerated target other than
completed with InvalidTransition, and target completed is an idempotent
no-op success; in the source itself, update_task can never change status
(apply_patch preserves it, status not being a serializer field), and
mark_task_complete, the one endpoint that writes status, leaves an
already-completed task unchanged. -/
theorem C4_completed_is_terminal (t : Task) (hc : t.status = "completed") :
    (∀ target, target = "pending" ∨ target = "in_progress" →
      spec_updateStatus t target = StatusResult.invalidTransition) ∧
    spec_updateStatus t "completed" = StatusResult.ok t ∧
    (∀ p : TaskPatch, (apply_patch t p).status = "completed") ∧
    (∀ u : User, has_permission u "PATCH" = true →
      has_object_permission u "PATCH" t = true →
      mark_task_complete u [t] t.id = (ViewResult.ok, [t])) := by
  refine ⟨?_, ?_, ?_, ?_⟩
  · rintro target (rfl | rfl) <;> simp [spec_updateStatus, hc]
  · simp [spec_updateStatus, hc]
  · intro p
    simp [apply_patch, hc]
  · intro u hp ho
    have ht : ({ t with status := "completed" } : Task) = t := by
      cases t
      simp_all
    simp [mark_task_complete, hp, ho, getTask, List.find?, saveTask, ht]

/-- C4 witness: the completed fixture task, with the admin caller for the
endpoint conjunct. -/
theorem C4_completed_is_terminal_witness :
    spec_updateStatus ctask "pending" = StatusResult.invalidTransition ∧
    spec_updateStatus ctask "completed" = StatusResult.ok ctask ∧
    mark_task_complete adminA [ctask] ctask.id = (ViewResult.ok, [ctask]) := by
  have h := C4_completed_is_terminal ctask rfl
  exact ⟨h.1 "pending" (Or.inl rfl), h.2.1, h.2.2.2 adminA (by decide) (by decide)⟩

/-- C5 counterexample: the claim says create fails with ValidationError
whenever the assignee set is empty, and that a persisted task's assignee
set is non-empty.  In the code the serializer's many relation keeps DRF's
allow_empty default, so an explicit empty list validates: mgr1's create
with assigned_to = [] succeeds and persists ctask5 whose assignee set is
empty. -/
theorem C5_empty_assignee_set_accepted :
    create_task mgr1 demoUsers [] emptyDraft 1 0 =
      (CreateResult.created ctask5, [ctask5], []) ∧
    ctask5.assigned_to = [] := by
  constructor <;> rfl

/-- C5 amended: create rejects (400, the serializer ValidationError) a
request whose assignee field is missing, as well as one whose supplied
assignee list contains an id outside the employee queryset, and every
assignee of a task that create persists lies in the employee queryset;
the persisted set may however be empty. -/
theorem C5_create_assignees_in_employee_queryset
    (u : User) (users : List User) (repo : List Task) (d : TaskDraft)
    (newId : Nat) (now : Int)
    (hp : has_permission u "POST" = true) :
    (d.assigned_to = none →
      create_task u users repo d newId now = (CreateResult.badRequest, repo, [])) ∧
    (∀ ids, d.assigned_to = some ids →
      (∃ i ∈ ids, inEmployeeQueryset users i = false) →
      create_task u users repo d newId now = (CreateResult.badRequest, repo, [])) ∧
    (∀ t repo2 ds,
      create_task u users repo d newId now = (CreateResult.created t, repo2, ds) →
      ∀ i ∈ t.assigned_to, inEmployeeQueryset users i = true) := by
  refine ⟨?_, ?_, ?_⟩
  · intro hnone
    have hv : create_serializer_valid users d = false := by
      simp [create_serializer_valid, hnone]
    simp [create_task, hp, hv]
  · rintro ids hids ⟨i, hi, hbad⟩
    have hv : create_serializer_valid users d = false := by
      simp [create_serializer_valid, hids, List.all_eq_true]
      exact ⟨i, hi, by simp [hbad]⟩
    simp [create_task, hp, hv]
  · intro t repo2 ds h
    unfold create_task at h
    rw [hp] at h
    simp only [Bool.not_true, Bool.false_eq_true, if_false] at h
    split at h
    · rename_i hvalid
      obtain ⟨ht, _, _⟩ := Prod.mk.injEq .. ▸ h
      cases hd : d.assigned_to with
      | none => rw [create_serializer_valid, hd] at hvalid; cases hvalid
      | some ids =>
        rw [create_serializer_valid, hd] at hvalid
        intro i hi
        have ht' := CreateResult.created.inj ht.symm
        rw [ht'] at hi
        simp only [hd, Option.getD_some] at hi
        exact List.all_eq_true.mp hvalid i hi
    · cases h

/-- C5 witness: mgr1 supplies assignee 42, absent from demoUsers'
employee queryset, and the create is rejected. -/
theorem C5_create_assignees_witness :
    create_task mgr1 demoUsers [] badDraft 1 0 = (CreateResult.badRequest, [], []) :=
  (C5_create_assignees_in_employee_queryset mgr1 demoUsers [] badDraft 1 0
    (by decide)).2.1 [42] rfl ⟨42, by decide, by decide⟩

/-- C6 counterexample: the claim says an update carrying a createdBy
different from the stored one fails with ImmutableFieldError.  In the
code assigned_by is a read-only serializer field, so mgr1's patch
carrying assigned_by = 999 on task1 (stored assigned_by = 1) is silently
ignored: the update succeeds and the repository is unchanged. -/
theorem C6_different_created_by_not_rejected :
    update_task mgr1 demoUsers [task1] 1 patch999 =
      (ViewResult.ok, [task1], []) := by
  rfl

/-- C6 amended: update_task silently ignores any submitted createdBy
value: the outcome is identical whatever assigned_by the patch carries
(same or different, no error of any kind), and the patch never changes
the stored assigned_by. -/
theorem C6_created_by_silently_ignored (u : User) (users : List User)
    (repo : List Task) (tid : Nat) (p : TaskPatch) (v : Option Nat) :
    update_task u users repo tid { p with assigned_by := v } =
      update_task u users repo tid p ∧
    ∀ t : Task, (apply_patch t { p with assigned_by := v }).assigned_by =
      t.assigned_by := by
  exact ⟨rfl, fun t => rfl⟩

/-- C7 counterexample: the claim says updateAssignees on a task assigned
to E1 with the new set E1, E2 triggers exactly one dispatch, to E2.  In
the code update_task performs no notification dispatch at all: creator
mgr2 enlarges task7's assignee set from 21 to 21, 22 successfully and the
dispatch list is empty. -/
theorem C7_enlarging_assignees_dispatches_nothing :
    update_task mgr2 users7 [task7] 7 patch7 =
      (ViewResult.ok, [{ task7 with assigned_to := [21, 22] }], []) := by
  rfl

/-- C7 amended: an assignee update through update_task triggers no
notification dispatch whatsoever, to added or existing assignees alike;
only create_task dispatches, and it addresses the full final set. -/
theorem C7_update_task_never_dispatches (u : User) (users : List User)
    (repo : List Task) (tid : Nat) (p : TaskPatch) :
    (update_task u users repo tid p).2.2 = [] := by
  unfold update_task
  split
  · rfl
  · split
    · rfl
    · split <;> rfl

/-- Filtering the dispatches of a fan-out over a recipient list by one
recipient counts that recipient's occurrences in the list. -/
theorem length_filter_mkDispatch (u : User) (t : Task) (r : Nat) :
    ∀ ids : List Nat,
      ((ids.map (mkDispatch u t)).filter (fun dp => dp.recipient == r)).length =
        ids.count r
  | [] => rfl
  | i :: ids => by
    simp only [List.map_cons, List.filter_cons, List.count_cons, mkDispatch]
    by_cases hi : i = r
    · simp [hi, length_filter_mkDispatch u t r ids]
    · simp [hi, length_filter_mkDispatch u t r ids]

/-- C8: on a successful create persisting task t, the dispatch list is
exactly one group_send per member of the final assignee set (so, the set
being duplicate-free, exactly one per recipient, not one broadcast), and
each dispatch carries the payload title, task id, task title and
assigning username, addressed to the recipient's own user group. -/
theorem C8_create_dispatch_fanout (u : User) (users : List User)
    (repo : List Task) (d : TaskDraft) (newId : Nat) (now : Int) (t : Task)
    (repo2 : List Task) (ds : List Dispatch)
    (h : create_task u users repo d newId now = (CreateResult.created t, repo2, ds)) :
    ds = t.assigned_to.map (mkDispatch u t) ∧
    (∀ r : Nat, (ds.filter (fun dp => dp.recipient == r)).length =
      t.assigned_to.count r) ∧
    (t.assigned_to.Nodup → ∀ r ∈ t.assigned_to,
      (ds.filter (fun dp => dp.recipient == r)).length = 1) ∧
    (∀ dp ∈ ds, dp.title = "New Task Assigned" ∧ dp.task_id = t.id ∧
      dp.task_title = t.title ∧ dp.assigned_by_name = u.username ∧
      dp.group = "user_" ++ toString dp.recipient) := by
  have hmap : ds = t.assigned_to.map (mkDispatch u t) := by
    simp only [create_task] at h
    split at h
    · cases h
    · split at h
      · rw [Prod.mk.injEq] at h
        obtain ⟨h1, h2⟩ := h
        rw [Prod.mk.injEq] at h2
        obtain rfl := CreateResult.created.inj h1
        exact h2.2.symm
      · cases h
  refine ⟨hmap, ?_, ?_, ?_⟩
  · intro r
    rw [hmap]
    exact length_filter_mkDispatch u t r t.assigned_to
  · intro hnd r hr
    rw [hmap, length_filter_mkDispatch u t r t.assigned_to]
    exact List.count_eq_one_of_mem hnd hr
  · intro dp hdp
    rw [hmap] at hdp
    obtain ⟨i, _, rfl⟩ := List.mem_map.mp hdp
    exact ⟨rfl, rfl, rfl, rfl, rfl⟩

/-- C8 witness: mgr1 creates task8 assigned to 21 and 22; among the two
dispatches exactly one is addressed to recipient 22. -/
theorem C8_create_dispatch_fanout_witness :
    (ds8.filter (fun dp => dp.recipient == 22)).length = 1 :=
  (C8_create_dispatch_fanout mgr1 users7 [] draft8 3 0 task8 [task8] ds8
    (by decide)).2.2.1 (by decide) 22 (by decide)

/-- C9: every id-targeting view looks the task up first, so for any
authenticated caller, whatever their role, an absent task id yields the
404 branch before any authorization decision: the read, the general
update, the delete, the status update and the deadline update all answer
notFound with the repository untouched. -/
theorem C9_absent_task_is_404_for_every_caller (u : User) (repo : List Task)
    (tid : Nat) (users : List User) (p : TaskPatch) (dl : Option (Option Int))
    (hauth : u.is_authenticated = true)
    (habsent : getTask repo tid = none) :
    list_one_task u repo tid = (ViewResult.notFound, none) ∧
    update_task u users repo tid p = (ViewResult.notFound, repo, []) ∧
    delete_task u repo tid = (ViewResult.notFound, repo) ∧
    mark_task_complete u repo tid = (ViewResult.notFound, repo) ∧
    update_task_deadline u repo tid dl = (ViewResult.notFound, repo) := by
  have hperm : ∀ m, (m == "POST") = false → has_permission u m = true := by
    intro m hm
    simp [has_permission, hauth, hm]
  have hG := hperm "GET" (by decide)
  have hPa := hperm "PATCH" (by decide)
  have hD := hperm "DELETE" (by decide)
  refine ⟨?_, ?_, ?_, ?_, ?_⟩
  · simp [list_one_task, hG, habsent]
  · simp [update_task, hPa, habsent]
  · simp [delete_task, hD, habsent]
  · simp [mark_task_complete, hPa, habsent]
  · simp [update_task_deadline, hPa, habsent]

/-- C9 witness: employee 3 against the empty repository. -/
theorem C9_absent_task_is_404_witness :
    delete_task emp3 [] 5 = (ViewResult.notFound, []) :=
  (C9_absent_task_is_404_for_every_caller emp3 [] 5 [] noPatch none rfl rfl).2.2.1

/-- C10: an unauthenticated caller fails has_permission for every HTTP
method and every role string, so each task view answers forbidden before
touching the repository: no listing, read, create, update, delete or
filter proceeds, no record changes and nothing is dispatched. -/
theorem C10_unauthenticated_caller_denied_everywhere (u : User) (m : String)
    (users : List User) (repo : List Task) (tid : Nat) (d : TaskDraft)
    (newId : Nat) (now : Int) (p : TaskPatch) (dl : Option (Option Int))
    (sp : Option String) (dp : Option (Option Int))
    (hu : u.is_authenticated = false) :
    has_permission u m = false ∧
    create_task u users repo d newId now = (CreateResult.forbidden, repo, []) ∧
    list_all_task u repo = ListResult.forbidden ∧
    filter_by_status u repo sp = ListResult.forbidden ∧
    filter_by_deadline u repo dp = ListResult.forbidden ∧
    list_one_task u repo tid = (ViewResult.forbidden, none) ∧
    update_task u users repo tid p = (ViewResult.forbidden, repo, []) ∧
    delete_task u repo tid = (ViewResult.forbidden, repo) ∧
    mark_task_complete u repo tid = (ViewResult.forbidden, repo) ∧
    update_task_deadline u repo tid dl = (ViewResult.forbidden, repo) := by
  have hp : ∀ m2, has_permission u m2 = false := by
    intro m2
    simp [has_permission, hu]
  exact ⟨hp m, by simp [create_task, hp], by simp [list_all_task, hp],
    by simp [filter_by_status, hp], by simp [filter_by_deadline, hp],
    by simp [list_one_task, hp], by simp [update_task, hp],
    by simp [delete_task, hp], by simp [mark_task_complete, hp],
    by simp [update_task_deadline, hp]⟩

/-- C10 witness: the unauthenticated fixture caller on task1. -/
theorem C10_unauthenticated_caller_denied_witness :
    has_permission anon "GET" = false ∧
    delete_task anon [task1] 1 = (ViewResult.forbidden, [task1]) := by
  have h := C10_unauthenticated_caller_denied_everywhere anon "GET" [] [task1] 1
    emptyDraft 1 0 noPatch none none none rfl
  exact ⟨h.1, h.2.2.2.2.2.2.2.1⟩

end TaskSys
